import Mathlib

/-!
Verification of the bubble overlay editor of the mangalawofgod repository.

The embedding below translates the editor's scene model and operations:
* the TextBubble record and BubbleType enum (src/types.ts),
* addBubble, updateBubble, deleteBubble, the copy/paste keyboard branches and
  the global pointer-move handler (src/unnamed/part_003, the current Editor),
* the read-time default resolution and the style-editor handlers
  (src/components/BubbleComponent.tsx).

JavaScript numbers are modelled by the rationals; JS truthiness on numbers
(0 is falsy) and strings (the empty string is falsy) is modelled explicitly
where the source uses a || default.
-/

/-- The visual variants of a bubble (src/types.ts, enum BubbleType). -/
inductive BubbleType where
  | SPEECH
  | THOUGHT
  | SHOUT
  | BOX
  | PLAIN_TEXT
  | WHISPER
  | FLASH
deriving DecidableEq, Repr

/-- One scene entity (src/types.ts, interface TextBubble).  Optional style
fields are `Option`s: defaults are applied at read time, not at creation. -/
structure TextBubble where
  id : String
  x : ℚ
  y : ℚ
  text : String
  type : BubbleType
  width : ℚ
  height : ℚ
  fontSize : Option ℚ
  fontWeight : Option String
  fontFamily : Option String
  letterSpacing : Option ℚ
  lineHeight : Option ℚ
  padding : Option ℚ
  textColor : Option String
  textStrokeColor : Option String
  textStrokeWidth : Option ℚ
  backgroundColor : Option String
  borderColor : Option String
deriving DecidableEq, Repr

/-- A `Partial<TextBubble>` record: each field is present (`some`) or absent
(`none`), as in the object literals the handlers pass to `onUpdate`. -/
structure BubbleUpdate where
  id : Option String := none
  x : Option ℚ := none
  y : Option ℚ := none
  text : Option String := none
  type : Option BubbleType := none
  width : Option ℚ := none
  height : Option ℚ := none
  fontSize : Option ℚ := none
  fontWeight : Option String := none
  fontFamily : Option String := none
  letterSpacing : Option ℚ := none
  lineHeight : Option ℚ := none
  padding : Option ℚ := none
  textColor : Option String := none
  textStrokeColor : Option String := none
  textStrokeWidth : Option ℚ := none
  backgroundColor : Option String := none
  borderColor : Option String := none
deriving DecidableEq, Repr

/-- Merge for a mandatory field: a present update value overrides. -/
def mergeField {α : Type} (old : α) (new : Option α) : α :=
  new.getD old

/-- Merge for an optional field: a present update value overrides. -/
def mergeOptField {α : Type} (old : Option α) (new : Option α) : Option α :=
  match new with
  | some v => some v
  | none => old

/-- The JS spread `{ ...b, ...updates }` (src/unnamed/part_003 line 110). -/
def applyUpdate (b : TextBubble) (u : BubbleUpdate) : TextBubble :=
  { id := mergeField b.id u.id
    x := mergeField b.x u.x
    y := mergeField b.y u.y
    text := mergeField b.text u.text
    type := mergeField b.type u.type
    width := mergeField b.width u.width
    height := mergeField b.height u.height
    fontSize := mergeOptField b.fontSize u.fontSize
    fontWeight := mergeOptField b.fontWeight u.fontWeight
    fontFamily := mergeOptField b.fontFamily u.fontFamily
    letterSpacing := mergeOptField b.letterSpacing u.letterSpacing
    lineHeight := mergeOptField b.lineHeight u.lineHeight
    padding := mergeOptField b.padding u.padding
    textColor := mergeOptField b.textColor u.textColor
    textStrokeColor := mergeOptField b.textStrokeColor u.textStrokeColor
    textStrokeWidth := mergeOptField b.textStrokeWidth u.textStrokeWidth
    backgroundColor := mergeOptField b.backgroundColor u.backgroundColor
    borderColor := mergeOptField b.borderColor u.borderColor }

/-- JS `v || d` for an optional number: absent or 0 falls back to `d`. -/
def jsOrNum (v : Option ℚ) (d : ℚ) : ℚ :=
  match v with
  | none => d
  | some q => if q = 0 then d else q

/-- JS `v || d` for an optional string: absent or empty falls back to `d`. -/
def jsOrStr (v : Option String) (d : String) : String :=
  match v with
  | none => d
  | some s => if s = "" then d else s

/-- Reads `bubble.fontSize || 16` (BubbleComponent.tsx line 38). -/
def resolvedFontSize (b : TextBubble) : ℚ := jsOrNum b.fontSize 16

/-- Reads `bubble.fontWeight || 'normal'` (line 39). -/
def resolvedFontWeight (b : TextBubble) : String := jsOrStr b.fontWeight "normal"

/-- Reads `bubble.fontFamily || 'Sriracha'` (line 40). -/
def resolvedFontFamily (b : TextBubble) : String := jsOrStr b.fontFamily "Sriracha"

/-- Reads `bubble.padding !== undefined ? bubble.padding : 16` (line 41): only an
absent field falls back, a stored 0 is kept. -/
def resolvedPadding (b : TextBubble) : ℚ := b.padding.getD 16

/-- Reads `bubble.lineHeight || 1.2` (line 42). -/
def resolvedLineHeight (b : TextBubble) : ℚ := jsOrNum b.lineHeight (6/5)

/-- Reads `bubble.letterSpacing || 0` (line 43). -/
def resolvedLetterSpacing (b : TextBubble) : ℚ := jsOrNum b.letterSpacing 0

/-- Reads `bubble.textColor || '#000000'` (line 46). -/
def resolvedTextColor (b : TextBubble) : String := jsOrStr b.textColor "#000000"

/-- Reads `bubble.backgroundColor || '#ffffff'` (line 47). -/
def resolvedBackgroundColor (b : TextBubble) : String :=
  jsOrStr b.backgroundColor "#ffffff"

/-- Reads `bubble.borderColor || '#000000'` (line 48). -/
def resolvedBorderColor (b : TextBubble) : String := jsOrStr b.borderColor "#000000"

/-- Reads `bubble.textStrokeWidth || 0` (line 49). -/
def resolvedStrokeWidth (b : TextBubble) : ℚ := jsOrNum b.textStrokeWidth 0

/-- Reads `bubble.textStrokeColor || '#ffffff'` (line 50). -/
def resolvedStrokeColor (b : TextBubble) : String :=
  jsOrStr b.textStrokeColor "#ffffff"

/-- JS `Math.round`: round half towards positive infinity. -/
def jsRound (q : ℚ) : ℤ := ⌊q + 1/2⌋

/-- The fixed font list (BubbleComponent.tsx FONT_OPTIONS, values only). -/
def FONT_OPTIONS : List String :=
  ["Sriracha", "Chakra Petch", "Itim", "Mali", "Bangers"]

/-- handleFontSizeChange (BubbleComponent.tsx lines 156-159):
`Math.max(8, Math.min(96, fontSize + delta))`. -/
def handleFontSizeChange (b : TextBubble) (delta : ℚ) : BubbleUpdate :=
  { fontSize := some (max 8 (min 96 (resolvedFontSize b + delta))) }

/-- handlePaddingChange (lines 161-164): `Math.max(0, padding + delta)`. -/
def handlePaddingChange (b : TextBubble) (delta : ℚ) : BubbleUpdate :=
  { padding := some (max 0 (resolvedPadding b + delta)) }

/-- handleLineHeightChange (lines 166-169): clamp to [0.8, 3.0], then store
`Math.round(newHeight * 10) / 10`. -/
def handleLineHeightChange (b : TextBubble) (delta : ℚ) : BubbleUpdate :=
  { lineHeight :=
      some ((jsRound ((max (4/5) (min 3 (resolvedLineHeight b + delta))) * 10) : ℚ) / 10) }

/-- handleLetterSpacingChange (lines 171-174): clamp to [-2, 20]. -/
def handleLetterSpacingChange (b : TextBubble) (delta : ℚ) : BubbleUpdate :=
  { letterSpacing := some (max (-2) (min 20 (resolvedLetterSpacing b + delta))) }

/-- toggleBold (lines 176-179). -/
def toggleBold (b : TextBubble) : BubbleUpdate :=
  { fontWeight := some (if resolvedFontWeight b = "bold" then "normal" else "bold") }

/-- toggleStroke (BubbleComponent.tsx lines 187-193). -/
def toggleStroke (b : TextBubble) : BubbleUpdate :=
  if resolvedStrokeWidth b > 0 then
    { textStrokeWidth := some 0 }
  else
    { textStrokeWidth := some 3, textStrokeColor := some "#ffffff" }

/-- The editor session state: scene, selection, clipboard
(src/unnamed/part_003 lines 12-14). -/
structure EditorState where
  bubbles : List TextBubble
  selectedBubbleId : Option String
  clipboard : Option TextBubble
deriving DecidableEq, Repr

/-- The entity built by addBubble (src/unnamed/part_003 lines 39-104): the
default bundle followed by the per-type override branches. -/
def addBubbleEntity (newId : String) (ty : BubbleType) : TextBubble :=
  let base : TextBubble :=
    { id := newId
      x := 50
      y := 50
      text := "ข้อความ..."
      type := ty
      width := 150
      height := 100
      fontSize := some 16
      fontWeight := some "normal"
      fontFamily := some "Sriracha"
      letterSpacing := some 0
      lineHeight := some (6/5)
      padding := some 16
      textColor := some "#000000"
      textStrokeColor := some "#ffffff"
      textStrokeWidth := some 0
      backgroundColor := some "#ffffff"
      borderColor := some "#000000" }
  if ty = BubbleType.BOX then
    { base with
      width := 200, height := 80, fontFamily := some "Chakra Petch", padding := some 8 }
  else if ty = BubbleType.PLAIN_TEXT then
    { base with
      width := 180, height := 60, text := "Plain Text", fontSize := some 20,
      fontWeight := some "bold", padding := some 4,
      backgroundColor := some "transparent", borderColor := some "transparent",
      textStrokeWidth := some 3, textStrokeColor := some "#ffffff" }
  else if ty = BubbleType.SHOUT then
    { base with
      fontWeight := some "bold", padding := some 24, backgroundColor := some "#fffacd" }
  else if ty = BubbleType.WHISPER then
    { base with
      fontFamily := some "Itim", textColor := some "#555555",
      borderColor := some "#888888" }
  else
    base

/-- addBubble (part_003 lines 105-106): append the new entity and select it. -/
def addBubble (s : EditorState) (newId : String) (ty : BubbleType) : EditorState :=
  let newBubble := addBubbleEntity newId ty
  { s with bubbles := s.bubbles ++ [newBubble], selectedBubbleId := some newBubble.id }

/-- updateBubble (part_003 lines 109-111): map the merge over the scene. -/
def updateBubble (bubbles : List TextBubble) (id : String) (u : BubbleUpdate) :
    List TextBubble :=
  bubbles.map (fun b => if b.id = id then applyUpdate b u else b)

/-- updateBubble lifted to the editor state. -/
def updateBubbleState (s : EditorState) (id : String) (u : BubbleUpdate) : EditorState :=
  { s with bubbles := updateBubble s.bubbles id u }

/-- deleteBubble (part_003 lines 113-116). -/
def deleteBubble (s : EditorState) (id : String) : EditorState :=
  { s with
    bubbles := s.bubbles.filter (fun b => b.id ≠ id)
    selectedBubbleId :=
      if s.selectedBubbleId = some id then none else s.selectedBubbleId }

/-- The copy branch of handleKeyDown (part_003 lines 131-137): snapshot the
selected bubble's value into the clipboard. -/
def copyBubble (s : EditorState) : EditorState :=
  match s.selectedBubbleId with
  | none => s
  | some sel =>
    match s.bubbles.find? (fun b => b.id = sel) with
    | none => s
    | some b => { s with clipboard := some b }

/-- The paste branch of handleKeyDown (part_003 lines 140-151): append a copy
of the clipboard with a fresh id, offset by (+30, +30), and select it. -/
def pasteBubble (s : EditorState) (newId : String) : EditorState :=
  match s.clipboard with
  | none => s
  | some c =>
    { s with
      bubbles := s.bubbles ++ [{ c with id := newId, x := c.x + 30, y := c.y + 30 }]
      selectedBubbleId := some newId }

/-- Drag mode (part_003 line 21). -/
inductive DragMode where
  | IDLE
  | MOVE
  | RESIZE
deriving DecidableEq, Repr

/-- The dragRef contents (part_003 lines 20-36). -/
structure DragState where
  mode : DragMode
  startX : ℚ
  startY : ℚ
  initialX : ℚ
  initialY : ℚ
  initialWidth : ℚ
  initialHeight : ℚ
deriving DecidableEq, Repr

/-- JS truthiness of `!selectedBubbleId`: null and the empty string are falsy. -/
def selectionFalsy (s : Option String) : Bool :=
  match s with
  | none => true
  | some str => str = ""

/-- The `{ x: ..., y: ... }` record the MOVE branch passes to updateBubble. -/
def moveUpdate (nx ny : ℚ) : BubbleUpdate := { x := some nx, y := some ny }

/-- The `{ width: ..., height: ... }` record the RESIZE branch passes. -/
def resizeUpdate (w h : ℚ) : BubbleUpdate := { width := some w, height := some h }

/-- handleGlobalMouseMove (part_003 lines 160-183). -/
def handleGlobalMouseMove (s : EditorState) (d : DragState) (clientX clientY : ℚ) :
    EditorState :=
  if d.mode = DragMode.IDLE ∨ selectionFalsy s.selectedBubbleId then s
  else
    match s.selectedBubbleId with
    | none => s
    | some sel =>
      let deltaX := clientX - d.startX
      let deltaY := clientY - d.startY
      match d.mode with
      | DragMode.MOVE =>
          updateBubbleState s sel
            (moveUpdate (d.initialX + deltaX) (d.initialY + deltaY))
      | DragMode.RESIZE =>
          updateBubbleState s sel
            (resizeUpdate (max 60 (d.initialWidth + deltaX))
              (max 40 (d.initialHeight + deltaY)))
      | DragMode.IDLE => s


/-- C1: for every entity type, addBubble appends an entity carrying that
type's default bundle — sizes 150×100 (SPEECH, THOUGHT, SHOUT, WHISPER,
FLASH), 200×80 (BOX), 180×60 (PLAIN_TEXT); font family Sriracha (the head of
the font list) except Chakra Petch for BOX and Itim for WHISPER; padding 16
except 24 (SHOUT), 8 (BOX), 4 (PLAIN_TEXT); and the extras: SHOUT is bold
with a pale-yellow fill, PLAIN_TEXT has transparent fill and border, bold
weight and text stroke width 3, WHISPER has muted gray text and border. -/
theorem addBubble_default_bundle (s : EditorState) (newId : String) :
    (∀ ty : BubbleType,
      (addBubble s newId ty).bubbles = s.bubbles ++ [addBubbleEntity newId ty] ∧
      (addBubble s newId ty).selectedBubbleId = some newId) ∧
    FONT_OPTIONS.head? = some "Sriracha" ∧
    ((addBubbleEntity newId BubbleType.SPEECH).width = 150 ∧
     (addBubbleEntity newId BubbleType.SPEECH).height = 100 ∧
     (addBubbleEntity newId BubbleType.SPEECH).fontFamily = some "Sriracha" ∧
     (addBubbleEntity newId BubbleType.SPEECH).padding = some 16) ∧
    ((addBubbleEntity newId BubbleType.THOUGHT).width = 150 ∧
     (addBubbleEntity newId BubbleType.THOUGHT).height = 100 ∧
     (addBubbleEntity newId BubbleType.THOUGHT).fontFamily = some "Sriracha" ∧
     (addBubbleEntity newId BubbleType.THOUGHT).padding = some 16) ∧
    ((addBubbleEntity newId BubbleType.SHOUT).width = 150 ∧
     (addBubbleEntity newId BubbleType.SHOUT).height = 100 ∧
     (addBubbleEntity newId BubbleType.SHOUT).fontFamily = some "Sriracha" ∧
     (addBubbleEntity newId BubbleType.SHOUT).padding = some 24 ∧
     (addBubbleEntity newId BubbleType.SHOUT).fontWeight = some "bold" ∧
     (addBubbleEntity newId BubbleType.SHOUT).backgroundColor = some "#fffacd") ∧
    ((addBubbleEntity newId BubbleType.WHISPER).width = 150 ∧
     (addBubbleEntity newId BubbleType.WHISPER).height = 100 ∧
     (addBubbleEntity newId BubbleType.WHISPER).fontFamily = some "Itim" ∧
     (addBubbleEntity newId BubbleType.WHISPER).padding = some 16 ∧
     (addBubbleEntity newId BubbleType.WHISPER).textColor = some "#555555" ∧
     (addBubbleEntity newId BubbleType.WHISPER).borderColor = some "#888888") ∧
    ((addBubbleEntity newId BubbleType.FLASH).width = 150 ∧
     (addBubbleEntity newId BubbleType.FLASH).height = 100 ∧
     (addBubbleEntity newId BubbleType.FLASH).fontFamily = some "Sriracha" ∧
     (addBubbleEntity newId BubbleType.FLASH).padding = some 16) ∧
    ((addBubbleEntity newId BubbleType.BOX).width = 200 ∧
     (addBubbleEntity newId BubbleType.BOX).height = 80 ∧
     (addBubbleEntity newId BubbleType.BOX).fontFamily = some "Chakra Petch" ∧
     (addBubbleEntity newId BubbleType.BOX).padding = some 8) ∧
    ((addBubbleEntity newId BubbleType.PLAIN_TEXT).width = 180 ∧
     (addBubbleEntity newId BubbleType.PLAIN_TEXT).height = 60 ∧
     (addBubbleEntity newId BubbleType.PLAIN_TEXT).fontFamily = some "Sriracha" ∧
     (addBubbleEntity newId BubbleType.PLAIN_TEXT).padding = some 4 ∧
     (addBubbleEntity newId BubbleType.PLAIN_TEXT).backgroundColor = some "transparent" ∧
     (addBubbleEntity newId BubbleType.PLAIN_TEXT).borderColor = some "transparent" ∧
     (addBubbleEntity newId BubbleType.PLAIN_TEXT).fontWeight = some "bold" ∧
     (addBubbleEntity newId BubbleType.PLAIN_TEXT).textStrokeWidth = some 3) := by
  refine ⟨fun ty => ⟨rfl, by cases ty <;> rfl⟩, ?_⟩
  repeat' apply And.intro
  all_goals rfl

/-- C7: updateBubble with an id matching no entity in the scene is a silent
no-op — the scene is returned unchanged (same entity count, every entity
bit-for-bit identical) and no error is possible. -/
theorem updateBubble_unknown_id (bubbles : List TextBubble) (id : String)
    (u : BubbleUpdate) (h : id ∉ bubbles.map TextBubble.id) :
    updateBubble bubbles id u = bubbles ∧
    (updateBubble bubbles id u).length = bubbles.length := by
  have key : updateBubble bubbles id u = bubbles := by
    unfold updateBubble
    conv_rhs => rw [← List.map_id bubbles]
    apply List.map_congr_left
    intro b hb
    have hne : b.id ≠ id := by
      intro he
      exact h (he ▸ List.mem_map_of_mem TextBubble.id hb)
    simp [hne]
  exact ⟨key, by rw [key]⟩

/-- C7 witness: updating a one-entity scene with a non-matching id leaves it
unchanged. -/
theorem updateBubble_unknown_id_witness :
    updateBubble [addBubbleEntity "a" BubbleType.SPEECH] "b" (moveUpdate 1 2)
      = [addBubbleEntity "a" BubbleType.SPEECH] ∧
    (updateBubble [addBubbleEntity "a" BubbleType.SPEECH] "b" (moveUpdate 1 2)).length
      = [addBubbleEntity "a" BubbleType.SPEECH].length :=
  updateBubble_unknown_id [addBubbleEntity "a" BubbleType.SPEECH] "b" (moveUpdate 1 2)
    (by decide)

/-- C10: a stored padding of exactly 0 is respected at read time (only an
absent padding falls back to 16), while a stored 0 for fontSize, lineHeight
or letterSpacing is treated as absent by the || defaulting and resolves to
16, 1.2 and 0 respectively. -/
theorem zero_field_defaulting (b : TextBubble) :
    (b.padding = some 0 → resolvedPadding b = 0) ∧
    (b.fontSize = some 0 → resolvedFontSize b = 16) ∧
    (b.lineHeight = some 0 → resolvedLineHeight b = 6/5) ∧
    (b.letterSpacing = some 0 → resolvedLetterSpacing b = 0) := by
  refine ⟨fun h => ?_, fun h => ?_, fun h => ?_, fun h => ?_⟩
  · rw [resolvedPadding, h]; rfl
  · rw [resolvedFontSize, h]; rfl
  · rw [resolvedLineHeight, h]; rfl
  · rw [resolvedLetterSpacing, h]; rfl

/-- C10 witness: a concrete entity storing 0 in all four fields reads back
padding 0, fontSize 16, lineHeight 1.2, letterSpacing 0. -/
theorem zero_field_defaulting_witness :
    (resolvedPadding (applyUpdate (addBubbleEntity "a" BubbleType.SPEECH)
        { fontSize := some 0, lineHeight := some 0, letterSpacing := some 0,
          padding := some 0 }) = 0) ∧
    (resolvedFontSize (applyUpdate (addBubbleEntity "a" BubbleType.SPEECH)
        { fontSize := some 0, lineHeight := some 0, letterSpacing := some 0,
          padding := some 0 }) = 16) ∧
    (resolvedLineHeight (applyUpdate (addBubbleEntity "a" BubbleType.SPEECH)
        { fontSize := some 0, lineHeight := some 0, letterSpacing := some 0,
          padding := some 0 }) = 6/5) ∧
    (resolvedLetterSpacing (applyUpdate (addBubbleEntity "a" BubbleType.SPEECH)
        { fontSize := some 0, lineHeight := some 0, letterSpacing := some 0,
          padding := some 0 }) = 0) := by
  obtain ⟨h1, h2, h3, h4⟩ := zero_field_defaulting
    (applyUpdate (addBubbleEntity "a" BubbleType.SPEECH)
      { fontSize := some 0, lineHeight := some 0, letterSpacing := some 0,
        padding := some 0 })
  exact ⟨h1 rfl, h2 rfl, h3 rfl, h4 rfl⟩

/-- C6: toggling the text outline when the resolved stroke width is 0 stores
width exactly 3 and color exactly #ffffff (whatever stroke color was stored
before); toggling when the resolved width is positive stores width exactly 0;
and since no previous width is remembered, toggling on after a toggle-off
always stores width 3. -/
theorem toggleStroke_width_toggle (b : TextBubble) :
    (resolvedStrokeWidth b = 0 →
      (applyUpdate b (toggleStroke b)).textStrokeWidth = some 3 ∧
      (applyUpdate b (toggleStroke b)).textStrokeColor = some "#ffffff") ∧
    (resolvedStrokeWidth b > 0 →
      (applyUpdate b (toggleStroke b)).textStrokeWidth = some 0) ∧
    (resolvedStrokeWidth b > 0 →
      (applyUpdate (applyUpdate b (toggleStroke b))
        (toggleStroke (applyUpdate b (toggleStroke b)))).textStrokeWidth = some 3) := by
  refine ⟨fun h0 => ?_, fun hpos => ?_, fun hpos => ?_⟩
  · have hneg : ¬ resolvedStrokeWidth b > 0 := by rw [h0]; exact lt_irrefl 0
    have ht : toggleStroke b
        = { textStrokeWidth := some 3, textStrokeColor := some "#ffffff" } := by
      simp only [toggleStroke, if_neg hneg]
    rw [ht]
    exact ⟨rfl, rfl⟩
  · have ht : toggleStroke b = { textStrokeWidth := some 0 } := by
      simp only [toggleStroke, if_pos hpos]
    rw [ht]
    rfl
  · have ht : toggleStroke b = { textStrokeWidth := some 0 } := by
      simp only [toggleStroke, if_pos hpos]
    rw [ht]
    have hneg : ¬ resolvedStrokeWidth
        (applyUpdate b { textStrokeWidth := some 0 }) > 0 := by
      show ¬ jsOrNum (some 0) 0 > 0
      norm_num [jsOrNum]
    have ht2 : toggleStroke (applyUpdate b { textStrokeWidth := some 0 })
        = { textStrokeWidth := some 3, textStrokeColor := some "#ffffff" } := by
      simp only [toggleStroke, if_neg hneg]
    rw [ht2]
    rfl

/-- C6 witness: on the PLAIN_TEXT default entity (stroke width 3, and with a
custom stroke color stored) toggling stores width 0, and toggling again
stores width 3 and color #ffffff. -/
theorem toggleStroke_width_toggle_witness :
    (applyUpdate (applyUpdate (addBubbleEntity "a" BubbleType.PLAIN_TEXT)
        { textStrokeColor := some "#123456" })
      (toggleStroke (applyUpdate (addBubbleEntity "a" BubbleType.PLAIN_TEXT)
        { textStrokeColor := some "#123456" }))).textStrokeWidth = some 0 ∧
    (applyUpdate
      (applyUpdate (applyUpdate (addBubbleEntity "a" BubbleType.PLAIN_TEXT)
          { textStrokeColor := some "#123456" })
        (toggleStroke (applyUpdate (addBubbleEntity "a" BubbleType.PLAIN_TEXT)
          { textStrokeColor := some "#123456" })))
      (toggleStroke (applyUpdate
        (applyUpdate (addBubbleEntity "a" BubbleType.PLAIN_TEXT)
          { textStrokeColor := some "#123456" })
        (toggleStroke (applyUpdate (addBubbleEntity "a" BubbleType.PLAIN_TEXT)
          { textStrokeColor := some "#123456" }))))).textStrokeWidth = some 3 := by
  obtain ⟨-, h2, h3⟩ := toggleStroke_width_toggle
    (applyUpdate (addBubbleEntity "a" BubbleType.PLAIN_TEXT)
      { textStrokeColor := some "#123456" })
  have hsw : resolvedStrokeWidth (applyUpdate (addBubbleEntity "a" BubbleType.PLAIN_TEXT)
      { textStrokeColor := some "#123456" }) = 3 := rfl
  exact ⟨h2 (by rw [hsw]; norm_num), h3 (by rw [hsw]; norm_num)⟩

/-- C3: each style-editor adjustment handler stores exactly the clamped value
of the proposed input v = resolved current value + delta: fontSize stores
clamp(v, 8, 96), lineHeight stores round(clamp(v, 0.8, 3.0), 1) (one decimal,
JS Math.round), letterSpacing stores clamp(v, -2, 20), padding stores
max(0, v); consequently every stored value lies in the legal range. -/
theorem style_handler_clamp_laws (b : TextBubble) (delta : ℚ) :
    ((applyUpdate b (handleFontSizeChange b delta)).fontSize
        = some (max 8 (min 96 (resolvedFontSize b + delta))) ∧
      ∀ v, (applyUpdate b (handleFontSizeChange b delta)).fontSize = some v →
        8 ≤ v ∧ v ≤ 96) ∧
    ((applyUpdate b (handleLineHeightChange b delta)).lineHeight
        = some ((jsRound ((max (4/5) (min 3 (resolvedLineHeight b + delta))) * 10) : ℚ)
            / 10) ∧
      ∀ v, (applyUpdate b (handleLineHeightChange b delta)).lineHeight = some v →
        4/5 ≤ v ∧ v ≤ 3) ∧
    ((applyUpdate b (handleLetterSpacingChange b delta)).letterSpacing
        = some (max (-2) (min 20 (resolvedLetterSpacing b + delta))) ∧
      ∀ v, (applyUpdate b (handleLetterSpacingChange b delta)).letterSpacing = some v →
        -2 ≤ v ∧ v ≤ 20) ∧
    ((applyUpdate b (handlePaddingChange b delta)).padding
        = some (max 0 (resolvedPadding b + delta)) ∧
      ∀ v, (applyUpdate b (handlePaddingChange b delta)).padding = some v → 0 ≤ v) := by
  refine ⟨⟨rfl, fun v hv => ?_⟩, ⟨rfl, fun v hv => ?_⟩, ⟨rfl, fun v hv => ?_⟩,
    ⟨rfl, fun v hv => ?_⟩⟩
  · have hv2 : max 8 (min 96 (resolvedFontSize b + delta)) = v := Option.some.inj hv
    subst hv2
    exact ⟨le_max_left _ _, max_le (by norm_num) (min_le_left _ _)⟩
  · have hv2 : (jsRound ((max (4/5) (min 3 (resolvedLineHeight b + delta))) * 10) : ℚ)
        / 10 = v := Option.some.inj hv
    subst hv2
    set c : ℚ := max (4/5) (min 3 (resolvedLineHeight b + delta)) with hc
    have hc1 : 4/5 ≤ c := le_max_left _ _
    have hc2 : c ≤ 3 := max_le (by norm_num) (min_le_left _ _)
    have h8 : (8 : ℤ) ≤ jsRound (c * 10) := by
      rw [jsRound]
      apply Int.le_floor.mpr
      push_cast
      linarith
    have h30 : jsRound (c * 10) ≤ 30 := by
      rw [jsRound]
      have : (⌊c * 10 + 1/2⌋ : ℤ) < 31 := by
        apply Int.floor_lt.mpr
        push_cast
        linarith
      omega
    have h8q : (8 : ℚ) ≤ (jsRound (c * 10) : ℚ) := by exact_mod_cast h8
    have h30q : ((jsRound (c * 10) : ℤ) : ℚ) ≤ 30 := by exact_mod_cast h30
    constructor <;> linarith
  · have hv2 : max (-2) (min 20 (resolvedLetterSpacing b + delta)) = v :=
      Option.some.inj hv
    subst hv2
    exact ⟨le_max_left _ _, max_le (by norm_num) (min_le_left _ _)⟩
  · have hv2 : max 0 (resolvedPadding b + delta) = v := Option.some.inj hv
    subst hv2
    exact le_max_left _ _

/-- C3 witness: on the SPEECH default entity, a +200 font-size step stores
96, a +10 line-height step stores 3, a -100 letter-spacing step stores -2,
and a -100 padding step stores 0, each within its legal range. -/
theorem style_handler_clamp_laws_witness :
    (applyUpdate (addBubbleEntity "a" BubbleType.SPEECH)
        (handleFontSizeChange (addBubbleEntity "a" BubbleType.SPEECH) 200)).fontSize
      = some 96 ∧
    (8 : ℚ) ≤ 96 ∧ (96 : ℚ) ≤ 96 ∧
    (applyUpdate (addBubbleEntity "a" BubbleType.SPEECH)
        (handleLineHeightChange (addBubbleEntity "a" BubbleType.SPEECH) 10)).lineHeight
      = some 3 ∧
    (4/5 : ℚ) ≤ 3 ∧ (3 : ℚ) ≤ 3 ∧
    (applyUpdate (addBubbleEntity "a" BubbleType.SPEECH)
        (handleLetterSpacingChange (addBubbleEntity "a" BubbleType.SPEECH)
          (-100))).letterSpacing
      = some (-2) ∧
    (-2 : ℚ) ≤ -2 ∧ (-2 : ℚ) ≤ 20 ∧
    (applyUpdate (addBubbleEntity "a" BubbleType.SPEECH)
        (handlePaddingChange (addBubbleEntity "a" BubbleType.SPEECH) (-100))).padding
      = some 0 ∧
    (0 : ℚ) ≤ 0 := by
  obtain ⟨⟨hf, hfb⟩, ⟨hl, hlb⟩, ⟨hs, hsb⟩, ⟨hp, hpb⟩⟩ :=
    style_handler_clamp_laws (addBubbleEntity "a" BubbleType.SPEECH) 200
  obtain ⟨-, ⟨hl2, hlb2⟩, -, -⟩ :=
    style_handler_clamp_laws (addBubbleEntity "a" BubbleType.SPEECH) 10
  obtain ⟨-, -, ⟨hs3, hsb3⟩, -⟩ :=
    style_handler_clamp_laws (addBubbleEntity "a" BubbleType.SPEECH) (-100)
  obtain ⟨-, -, -, ⟨hp4, hpb4⟩⟩ :=
    style_handler_clamp_laws (addBubbleEntity "a" BubbleType.SPEECH) (-100)
  have hres1 : resolvedFontSize (addBubbleEntity "a" BubbleType.SPEECH) = 16 := rfl
  have hres2 : resolvedLineHeight (addBubbleEntity "a" BubbleType.SPEECH) = 6/5 := by
    simp [resolvedLineHeight, addBubbleEntity, jsOrNum]
  have hres3 : resolvedLetterSpacing (addBubbleEntity "a" BubbleType.SPEECH) = 0 := rfl
  have hres4 : resolvedPadding (addBubbleEntity "a" BubbleType.SPEECH) = 16 := rfl
  have e1 : (applyUpdate (addBubbleEntity "a" BubbleType.SPEECH)
      (handleFontSizeChange (addBubbleEntity "a" BubbleType.SPEECH) 200)).fontSize
      = some 96 := by
    rw [hf, hres1]
    congr 1
    rw [min_eq_left (by norm_num : (96 : ℚ) ≤ 16 + 200),
      max_eq_right (by norm_num : (8 : ℚ) ≤ 96)]
  have hjr : jsRound ((3 : ℚ) * 10) = 30 := by
    rw [jsRound, Int.floor_eq_iff]
    norm_num
  have e2 : (applyUpdate (addBubbleEntity "a" BubbleType.SPEECH)
      (handleLineHeightChange (addBubbleEntity "a" BubbleType.SPEECH) 10)).lineHeight
      = some 3 := by
    rw [hl2, hres2]
    rw [min_eq_left (by norm_num : (3 : ℚ) ≤ 6/5 + 10),
      max_eq_right (by norm_num : (4 / 5 : ℚ) ≤ 3), hjr]
    norm_num
  have e3 : (applyUpdate (addBubbleEntity "a" BubbleType.SPEECH)
      (handleLetterSpacingChange (addBubbleEntity "a" BubbleType.SPEECH)
        (-100))).letterSpacing = some (-2) := by
    rw [hs3, hres3]
    congr 1
    rw [min_eq_right (by norm_num : (0 : ℚ) + -100 ≤ 20),
      max_eq_left (by norm_num : (0 : ℚ) + -100 ≤ -2)]
  have e4 : (applyUpdate (addBubbleEntity "a" BubbleType.SPEECH)
      (handlePaddingChange (addBubbleEntity "a" BubbleType.SPEECH) (-100))).padding
      = some 0 := by
    rw [hp4, hres4]
    congr 1
    rw [max_eq_left (by norm_num : (16 : ℚ) + -100 ≤ 0)]
  obtain ⟨w1, w2⟩ := hfb 96 e1
  obtain ⟨w3, w4⟩ := hlb2 3 e2
  obtain ⟨w5, w6⟩ := hsb3 (-2) e3
  have w7 := hpb4 0 e4
  exact ⟨e1, w1, w2, e2, w3, w4, e3, w5, w6, e4, w7⟩

/-- A record without an id field leaves the id unchanged under merge. -/
theorem applyUpdate_id_of_none (b : TextBubble) (u : BubbleUpdate) (h : u.id = none) :
    (applyUpdate b u).id = b.id := by
  simp [applyUpdate, mergeField, h]

/-- updateBubble with an id-free record preserves the scene's id sequence. -/
theorem updateBubble_map_id (l : List TextBubble) (i : String) (u : BubbleUpdate)
    (h : u.id = none) :
    (updateBubble l i u).map TextBubble.id = l.map TextBubble.id := by
  unfold updateBubble
  rw [List.map_map]
  apply List.map_congr_left
  intro b hb
  by_cases hbi : b.id = i
  · simp [Function.comp_apply, hbi, applyUpdate_id_of_none _ _ h]
  · simp [Function.comp_apply, hbi]

/-- The RESIZE branch record merges into exactly the width and height. -/
theorem applyUpdate_resize (b : TextBubble) (w h : ℚ) :
    applyUpdate b (resizeUpdate w h) = { b with width := w, height := h } := rfl

/-- The MOVE branch record merges into exactly the x and y position. -/
theorem applyUpdate_move (b : TextBubble) (nx ny : ℚ) :
    applyUpdate b (moveUpdate nx ny) = { b with x := nx, y := ny } := rfl

/-- Writing the same absolute position twice equals writing it once. -/
theorem updateBubble_move_idem (l : List TextBubble) (i : String) (nx ny : ℚ) :
    updateBubble (updateBubble l i (moveUpdate nx ny)) i (moveUpdate nx ny)
      = updateBubble l i (moveUpdate nx ny) := by
  unfold updateBubble
  rw [List.map_map]
  apply List.map_congr_left
  intro b hb
  simp only [Function.comp_apply]
  by_cases hbi : b.id = i
  · rw [if_pos hbi]
    have hid : (applyUpdate b (moveUpdate nx ny)).id = b.id := rfl
    rw [if_pos (by rw [hid]; exact hbi)]
    rfl
  · rw [if_neg hbi, if_neg hbi]

/-- C4: with a RESIZE drag in progress on selection sel, every pointer-move
stores width = max(60, initialWidth + deltaX) and height =
max(40, initialHeight + deltaY) on the selected entity, so the entity the
resize writes never has width below 60 or height below 40, whatever the sign
or magnitude of the drag delta. -/
theorem resize_min_size (s : EditorState) (d : DragState) (cx cy : ℚ) (sel : String)
    (hm : d.mode = DragMode.RESIZE) (hs : s.selectedBubbleId = some sel)
    (hne : sel ≠ "") :
    (handleGlobalMouseMove s d cx cy).bubbles
      = s.bubbles.map (fun b => if b.id = sel then
          { b with width := max 60 (d.initialWidth + (cx - d.startX)),
                   height := max 40 (d.initialHeight + (cy - d.startY)) } else b) ∧
    ∀ b ∈ (handleGlobalMouseMove s d cx cy).bubbles, b.id = sel →
      60 ≤ b.width ∧ 40 ≤ b.height := by
  have hmain : handleGlobalMouseMove s d cx cy
      = updateBubbleState s sel
          (resizeUpdate (max 60 (d.initialWidth + (cx - d.startX)))
            (max 40 (d.initialHeight + (cy - d.startY)))) := by
    simp [handleGlobalMouseMove, hs, hm, selectionFalsy, hne]
  have hlist : (handleGlobalMouseMove s d cx cy).bubbles
      = s.bubbles.map (fun b => if b.id = sel then
          { b with width := max 60 (d.initialWidth + (cx - d.startX)),
                   height := max 40 (d.initialHeight + (cy - d.startY)) } else b) := by
    rw [hmain]
    show updateBubble s.bubbles sel _ = _
    unfold updateBubble
    apply List.map_congr_left
    intro b hb
    by_cases hbi : b.id = sel
    · rw [if_pos hbi, if_pos hbi, applyUpdate_resize]
    · rw [if_neg hbi, if_neg hbi]
  refine ⟨hlist, fun b hb hbid => ?_⟩
  rw [hlist] at hb
  obtain ⟨a, ha, rfl⟩ := List.mem_map.mp hb
  by_cases hai : a.id = sel
  · rw [if_pos hai]
    exact ⟨le_max_left _ _, le_max_left _ _⟩
  · rw [if_neg hai] at hbid ⊢
    exact absurd hbid hai

/-- C4 witness: a concrete RESIZE drag with a large negative delta yields the
clamped 60 by 40 size on the selected entity. -/
theorem resize_min_size_witness :
    (handleGlobalMouseMove
        { bubbles := [addBubbleEntity "a" BubbleType.SPEECH],
          selectedBubbleId := some "a", clipboard := none }
        { mode := DragMode.RESIZE, startX := 0, startY := 0, initialX := 50,
          initialY := 50, initialWidth := 150, initialHeight := 100 }
        (-1000) (-1000)).bubbles
      = [{ addBubbleEntity "a" BubbleType.SPEECH with width := 60, height := 40 }] := by
  obtain ⟨hlist, -⟩ := resize_min_size
    { bubbles := [addBubbleEntity "a" BubbleType.SPEECH],
      selectedBubbleId := some "a", clipboard := none }
    { mode := DragMode.RESIZE, startX := 0, startY := 0, initialX := 50,
      initialY := 50, initialWidth := 150, initialHeight := 100 }
    (-1000) (-1000) "a" rfl rfl (by decide)
  rw [hlist]
  simp only [List.map_cons, List.map_nil]
  rw [if_pos (show (addBubbleEntity "a" BubbleType.SPEECH).id = "a" from rfl)]
  have hw : max (60 : ℚ) (150 + (-1000 - 0)) = 60 :=
    max_eq_left (by norm_num)
  have hh : max (40 : ℚ) (100 + (-1000 - 0)) = 40 :=
    max_eq_left (by norm_num)
  rw [hw, hh]

/-- C5: with a MOVE drag in progress, a pointer-move event writes the
selected entity's position absolutely as initial position plus (current
pointer - start pointer); the write is idempotent, so any number of repeats
of the same event equals one, and an event arriving with no selection leaves
the state untouched. -/
theorem move_absolute_idempotent (s : EditorState) (d : DragState) (cx cy : ℚ)
    (hm : d.mode = DragMode.MOVE) :
    (s.selectedBubbleId = none → handleGlobalMouseMove s d cx cy = s) ∧
    (∀ sel, s.selectedBubbleId = some sel → sel ≠ "" →
      (handleGlobalMouseMove s d cx cy).bubbles
        = s.bubbles.map (fun b => if b.id = sel then
            { b with x := d.initialX + (cx - d.startX),
                     y := d.initialY + (cy - d.startY) } else b)) ∧
    handleGlobalMouseMove (handleGlobalMouseMove s d cx cy) d cx cy
      = handleGlobalMouseMove s d cx cy ∧
    (∀ n : ℕ, Nat.iterate (fun st => handleGlobalMouseMove st d cx cy) (n + 1) s
      = handleGlobalMouseMove s d cx cy) := by
  have hnosel : ∀ t : EditorState, selectionFalsy t.selectedBubbleId = true →
      handleGlobalMouseMove t d cx cy = t := by
    intro t ht
    simp [handleGlobalMouseMove, ht]
  have hsome : ∀ t : EditorState, ∀ sel, t.selectedBubbleId = some sel → sel ≠ "" →
      handleGlobalMouseMove t d cx cy
        = updateBubbleState t sel
            (moveUpdate (d.initialX + (cx - d.startX)) (d.initialY + (cy - d.startY))) := by
    intro t sel ht hne
    simp [handleGlobalMouseMove, ht, hm, selectionFalsy, hne]
  have hidem : handleGlobalMouseMove (handleGlobalMouseMove s d cx cy) d cx cy
      = handleGlobalMouseMove s d cx cy := by
    rcases hsel : s.selectedBubbleId with _ | sel
    · have h1 : handleGlobalMouseMove s d cx cy = s :=
        hnosel s (by rw [hsel]; rfl)
      rw [h1, h1]
    · by_cases hne : sel = ""
      · have h1 : handleGlobalMouseMove s d cx cy = s :=
          hnosel s (by rw [hsel, hne]; rfl)
        rw [h1, h1]
      · have h1 := hsome s sel hsel hne
        have hsel2 : (handleGlobalMouseMove s d cx cy).selectedBubbleId = some sel := by
          rw [h1]; exact hsel
        have h2 := hsome (handleGlobalMouseMove s d cx cy) sel hsel2 hne
        rw [h2, h1]
        simp [updateBubbleState, updateBubble_move_idem]
  refine ⟨fun h => hnosel s (by rw [h]; rfl), fun sel hsel hne => ?_, hidem, fun n => ?_⟩
  · rw [hsome s sel hsel hne]
    show updateBubble s.bubbles sel _ = _
    unfold updateBubble
    apply List.map_congr_left
    intro b hb
    by_cases hbi : b.id = sel
    · rw [if_pos hbi, if_pos hbi, applyUpdate_move]
    · rw [if_neg hbi, if_neg hbi]
  · induction n with
    | zero => rfl
    | succ k ih =>
        rw [Function.iterate_succ_apply']
        rw [ih]
        exact hidem

/-- C5 witness: a concrete MOVE drag writes the absolute position, repeating
the event changes nothing more, and without a selection nothing changes. -/
theorem move_absolute_idempotent_witness :
    (handleGlobalMouseMove
        { bubbles := [addBubbleEntity "a" BubbleType.SPEECH],
          selectedBubbleId := none, clipboard := none }
        { mode := DragMode.MOVE, startX := 0, startY := 0, initialX := 50,
          initialY := 50, initialWidth := 150, initialHeight := 100 } 40 (-10)
      = { bubbles := [addBubbleEntity "a" BubbleType.SPEECH],
          selectedBubbleId := none, clipboard := none }) ∧
    (handleGlobalMouseMove (handleGlobalMouseMove
        { bubbles := [addBubbleEntity "a" BubbleType.SPEECH],
          selectedBubbleId := some "a", clipboard := none }
        { mode := DragMode.MOVE, startX := 0, startY := 0, initialX := 50,
          initialY := 50, initialWidth := 150, initialHeight := 100 } 40 (-10))
        { mode := DragMode.MOVE, startX := 0, startY := 0, initialX := 50,
          initialY := 50, initialWidth := 150, initialHeight := 100 } 40 (-10)
      = handleGlobalMouseMove
        { bubbles := [addBubbleEntity "a" BubbleType.SPEECH],
          selectedBubbleId := some "a", clipboard := none }
        { mode := DragMode.MOVE, startX := 0, startY := 0, initialX := 50,
          initialY := 50, initialWidth := 150, initialHeight := 100 } 40 (-10)) := by
  obtain ⟨hnone, -, -, -⟩ := move_absolute_idempotent
    { bubbles := [addBubbleEntity "a" BubbleType.SPEECH],
      selectedBubbleId := none, clipboard := none }
    { mode := DragMode.MOVE, startX := 0, startY := 0, initialX := 50,
      initialY := 50, initialWidth := 150, initialHeight := 100 } 40 (-10) rfl
  obtain ⟨-, -, hid, -⟩ := move_absolute_idempotent
    { bubbles := [addBubbleEntity "a" BubbleType.SPEECH],
      selectedBubbleId := some "a", clipboard := none }
    { mode := DragMode.MOVE, startX := 0, startY := 0, initialX := 50,
      initialY := 50, initialWidth := 150, initialHeight := 100 } 40 (-10) rfl
  exact ⟨hnone rfl, hid⟩

/-- Filtering away an id that appears nowhere in the scene changes nothing. -/
theorem filter_ne_of_not_mem (l : List TextBubble) (i : String)
    (h : i ∉ l.map TextBubble.id) :
    l.filter (fun b => b.id ≠ i) = l := by
  induction l with
  | nil => rfl
  | cons a t ih =>
      simp only [List.map_cons, List.mem_cons, not_or] at h
      obtain ⟨h1, h2⟩ := h
      have ha : (fun b => decide (b.id ≠ i)) a = true := by
        simp only [ne_eq, decide_eq_true_eq]
        exact fun he => h1 he.symm
      rw [List.filter_cons, if_pos ha, ih h2]

/-- C8: delete(id) removes exactly the one entity carrying that id (in a
scene where the id occurs once), keeping every other entity in order; it
clears the selection when the deleted entity was selected and leaves the
selection unchanged otherwise. -/
theorem deleteBubble_removes_matching (s : EditorState)
    (pre post : List TextBubble) (victim : TextBubble)
    (hsplit : s.bubbles = pre ++ victim :: post)
    (hpre : victim.id ∉ pre.map TextBubble.id)
    (hpost : victim.id ∉ post.map TextBubble.id) :
    (deleteBubble s victim.id).bubbles = pre ++ post ∧
    (s.selectedBubbleId = some victim.id →
      (deleteBubble s victim.id).selectedBubbleId = none) ∧
    (s.selectedBubbleId ≠ some victim.id →
      (deleteBubble s victim.id).selectedBubbleId = s.selectedBubbleId) := by
  refine ⟨?_, fun h => ?_, fun h => ?_⟩
  · show s.bubbles.filter (fun b => b.id ≠ victim.id) = pre ++ post
    rw [hsplit, List.filter_append]
    rw [List.filter_cons, if_neg (by simp),
      filter_ne_of_not_mem pre victim.id hpre,
      filter_ne_of_not_mem post victim.id hpost]
  · show (if s.selectedBubbleId = some victim.id then none else s.selectedBubbleId)
      = none
    rw [if_pos h]
  · show (if s.selectedBubbleId = some victim.id then none else s.selectedBubbleId)
      = s.selectedBubbleId
    rw [if_neg h]

/-- C8 witness: deleting the middle, selected entity of a three-entity scene
removes exactly it and clears the selection; with a different selection the
selection stays. -/
theorem deleteBubble_removes_matching_witness :
    (deleteBubble
        { bubbles := [addBubbleEntity "a" BubbleType.SPEECH,
            addBubbleEntity "b" BubbleType.BOX, addBubbleEntity "c" BubbleType.SHOUT],
          selectedBubbleId := some "b", clipboard := none }
        (addBubbleEntity "b" BubbleType.BOX).id).bubbles
      = [addBubbleEntity "a" BubbleType.SPEECH, addBubbleEntity "c" BubbleType.SHOUT] ∧
    (deleteBubble
        { bubbles := [addBubbleEntity "a" BubbleType.SPEECH,
            addBubbleEntity "b" BubbleType.BOX, addBubbleEntity "c" BubbleType.SHOUT],
          selectedBubbleId := some "b", clipboard := none }
        (addBubbleEntity "b" BubbleType.BOX).id).selectedBubbleId = none ∧
    (deleteBubble
        { bubbles := [addBubbleEntity "a" BubbleType.SPEECH,
            addBubbleEntity "b" BubbleType.BOX, addBubbleEntity "c" BubbleType.SHOUT],
          selectedBubbleId := some "a", clipboard := none }
        (addBubbleEntity "b" BubbleType.BOX).id).selectedBubbleId = some "a" := by
  obtain ⟨hb, hsel, -⟩ := deleteBubble_removes_matching
    { bubbles := [addBubbleEntity "a" BubbleType.SPEECH,
        addBubbleEntity "b" BubbleType.BOX, addBubbleEntity "c" BubbleType.SHOUT],
      selectedBubbleId := some "b", clipboard := none }
    [addBubbleEntity "a" BubbleType.SPEECH] [addBubbleEntity "c" BubbleType.SHOUT]
    (addBubbleEntity "b" BubbleType.BOX) rfl (by decide) (by decide)
  obtain ⟨-, -, hkeep⟩ := deleteBubble_removes_matching
    { bubbles := [addBubbleEntity "a" BubbleType.SPEECH,
        addBubbleEntity "b" BubbleType.BOX, addBubbleEntity "c" BubbleType.SHOUT],
      selectedBubbleId := some "a", clipboard := none }
    [addBubbleEntity "a" BubbleType.SPEECH] [addBubbleEntity "c" BubbleType.SHOUT]
    (addBubbleEntity "b" BubbleType.BOX) rfl (by decide) (by decide)
  exact ⟨hb, hsel (by decide), hkeep (by decide)⟩

/-- C9: update(id, partial) preserves the entity count and the sequence
order, leaves every entity at a position whose id differs from the target
unchanged, turns the matching entity into the field merge, and the merge
leaves every field the partial does not list untouched. -/
theorem updateBubble_frame (bubbles : List TextBubble) (i : String) (u : BubbleUpdate) :
    (updateBubble bubbles i u).length = bubbles.length ∧
    (∀ n : ℕ, (updateBubble bubbles i u).get? n
        = (bubbles.get? n).map (fun b => if b.id = i then applyUpdate b u else b)) ∧
    (∀ n : ℕ, ∀ b, bubbles.get? n = some b → b.id ≠ i →
      (updateBubble bubbles i u).get? n = some b) ∧
    (∀ n : ℕ, ∀ b, bubbles.get? n = some b → b.id = i →
      (updateBubble bubbles i u).get? n = some (applyUpdate b u)) ∧
    (∀ b : TextBubble,
      (u.id = none → (applyUpdate b u).id = b.id) ∧
      (u.x = none → (applyUpdate b u).x = b.x) ∧
      (u.y = none → (applyUpdate b u).y = b.y) ∧
      (u.text = none → (applyUpdate b u).text = b.text) ∧
      (u.type = none → (applyUpdate b u).type = b.type) ∧
      (u.width = none → (applyUpdate b u).width = b.width) ∧
      (u.height = none → (applyUpdate b u).height = b.height) ∧
      (u.fontSize = none → (applyUpdate b u).fontSize = b.fontSize) ∧
      (u.fontWeight = none → (applyUpdate b u).fontWeight = b.fontWeight) ∧
      (u.fontFamily = none → (applyUpdate b u).fontFamily = b.fontFamily) ∧
      (u.letterSpacing = none → (applyUpdate b u).letterSpacing = b.letterSpacing) ∧
      (u.lineHeight = none → (applyUpdate b u).lineHeight = b.lineHeight) ∧
      (u.padding = none → (applyUpdate b u).padding = b.padding) ∧
      (u.textColor = none → (applyUpdate b u).textColor = b.textColor) ∧
      (u.textStrokeColor = none → (applyUpdate b u).textStrokeColor = b.textStrokeColor) ∧
      (u.textStrokeWidth = none → (applyUpdate b u).textStrokeWidth = b.textStrokeWidth) ∧
      (u.backgroundColor = none → (applyUpdate b u).backgroundColor = b.backgroundColor) ∧
      (u.borderColor = none → (applyUpdate b u).borderColor = b.borderColor)) := by
  have hget : ∀ n : ℕ, (updateBubble bubbles i u).get? n
      = (bubbles.get? n).map (fun b => if b.id = i then applyUpdate b u else b) := by
    intro n
    unfold updateBubble
    exact List.get?_map _ _ _
  refine ⟨by unfold updateBubble; rw [List.length_map], hget,
    fun n b hb hne => ?_, fun n b hb heq => ?_, fun b => ?_⟩
  · rw [hget n, hb]
    simp [hne]
  · rw [hget n, hb]
    simp [heq]
  · refine ⟨fun h => ?_, fun h => ?_, fun h => ?_, fun h => ?_, fun h => ?_, fun h => ?_,
      fun h => ?_, fun h => ?_, fun h => ?_, fun h => ?_, fun h => ?_, fun h => ?_,
      fun h => ?_, fun h => ?_, fun h => ?_, fun h => ?_, fun h => ?_, fun h => ?_⟩ <;>
      simp [applyUpdate, mergeField, mergeOptField, h]

/-- C9 witness: updating the first of two entities leaves the second intact,
keeps the count at two, and an x-only update leaves the width untouched. -/
theorem updateBubble_frame_witness :
    (updateBubble [addBubbleEntity "a" BubbleType.SPEECH,
        addBubbleEntity "b" BubbleType.BOX] "a" (moveUpdate 99 98)).length = 2 ∧
    (updateBubble [addBubbleEntity "a" BubbleType.SPEECH,
        addBubbleEntity "b" BubbleType.BOX] "a" (moveUpdate 99 98)).get? 1
      = some (addBubbleEntity "b" BubbleType.BOX) ∧
    (updateBubble [addBubbleEntity "a" BubbleType.SPEECH,
        addBubbleEntity "b" BubbleType.BOX] "a" (moveUpdate 99 98)).get? 0
      = some (applyUpdate (addBubbleEntity "a" BubbleType.SPEECH) (moveUpdate 99 98)) ∧
    (applyUpdate (addBubbleEntity "a" BubbleType.SPEECH) (moveUpdate 99 98)).width
      = (addBubbleEntity "a" BubbleType.SPEECH).width := by
  obtain ⟨hlen, -, hother, hmatch, hfields⟩ := updateBubble_frame
    [addBubbleEntity "a" BubbleType.SPEECH, addBubbleEntity "b" BubbleType.BOX]
    "a" (moveUpdate 99 98)
  obtain ⟨-, -, -, -, -, hw, -⟩ := hfields (addBubbleEntity "a" BubbleType.SPEECH)
  exact ⟨hlen, hother 1 (addBubbleEntity "b" BubbleType.BOX) rfl (by decide),
    hmatch 0 (addBubbleEntity "a" BubbleType.SPEECH) rfl rfl, hw rfl⟩

/-- updateBubble distributes over list append. -/
theorem updateBubble_append (l1 l2 : List TextBubble) (i : String) (u : BubbleUpdate) :
    updateBubble (l1 ++ l2) i u = updateBubble l1 i u ++ updateBubble l2 i u := by
  unfold updateBubble
  rw [List.map_append]

/-- updateBubble leaves a non-matching singleton unchanged. -/
theorem updateBubble_singleton_ne (b : TextBubble) (i : String) (u : BubbleUpdate)
    (h : b.id ≠ i) : updateBubble [b] i u = [b] := by
  unfold updateBubble
  simp [h]

/-- C2: with a non-empty clipboard holding entity c, two pastes with fresh
ids — with arbitrary moves of the original entity before the first paste and
between the pastes — append exactly two new entities, both positioned at
(c.x + 30, c.y + 30), each selected right after its paste; the new ids are
distinct from every other entity's id, and the moves never influence the
pasted positions because paste reads the clipboard, not the live entity. -/
theorem paste_twice_fresh_offset (s : EditorState) (c : TextBubble)
    (id1 id2 : String) (nx1 ny1 nx2 ny2 : ℚ)
    (hc : s.clipboard = some c)
    (h1 : id1 ∉ s.bubbles.map TextBubble.id)
    (h2 : id2 ∉ s.bubbles.map TextBubble.id)
    (h12 : id1 ≠ id2)
    (hc1 : c.id ≠ id1) (hc2 : c.id ≠ id2) :
    (pasteBubble (updateBubbleState s c.id (moveUpdate nx1 ny1)) id1).selectedBubbleId
      = some id1 ∧
    (pasteBubble (updateBubbleState
        (pasteBubble (updateBubbleState s c.id (moveUpdate nx1 ny1)) id1)
        c.id (moveUpdate nx2 ny2)) id2).selectedBubbleId = some id2 ∧
    (pasteBubble (updateBubbleState
        (pasteBubble (updateBubbleState s c.id (moveUpdate nx1 ny1)) id1)
        c.id (moveUpdate nx2 ny2)) id2).bubbles
      = updateBubble (updateBubble s.bubbles c.id (moveUpdate nx1 ny1)) c.id
          (moveUpdate nx2 ny2)
        ++ [{ c with id := id1, x := c.x + 30, y := c.y + 30 },
            { c with id := id2, x := c.x + 30, y := c.y + 30 }] ∧
    (pasteBubble (updateBubbleState
        (pasteBubble (updateBubbleState s c.id (moveUpdate nx1 ny1)) id1)
        c.id (moveUpdate nx2 ny2)) id2).bubbles.map TextBubble.id
      = s.bubbles.map TextBubble.id ++ [id1, id2] ∧
    id1 ∉ (updateBubble (updateBubble s.bubbles c.id (moveUpdate nx1 ny1)) c.id
        (moveUpdate nx2 ny2)).map TextBubble.id ∧
    id2 ∉ (updateBubble (updateBubble s.bubbles c.id (moveUpdate nx1 ny1)) c.id
        (moveUpdate nx2 ny2)).map TextBubble.id := by
  have hmaps : (updateBubble (updateBubble s.bubbles c.id (moveUpdate nx1 ny1)) c.id
      (moveUpdate nx2 ny2)).map TextBubble.id = s.bubbles.map TextBubble.id := by
    rw [updateBubble_map_id _ _ _ rfl, updateBubble_map_id _ _ _ rfl]
  have e1 : pasteBubble (updateBubbleState s c.id (moveUpdate nx1 ny1)) id1
      = { bubbles := updateBubble s.bubbles c.id (moveUpdate nx1 ny1)
            ++ [{ c with id := id1, x := c.x + 30, y := c.y + 30 }],
          selectedBubbleId := some id1,
          clipboard := some c } := by
    simp [pasteBubble, updateBubbleState, hc]
  have e2 : updateBubbleState
      (pasteBubble (updateBubbleState s c.id (moveUpdate nx1 ny1)) id1)
      c.id (moveUpdate nx2 ny2)
      = { bubbles := updateBubble (updateBubble s.bubbles c.id (moveUpdate nx1 ny1))
            c.id (moveUpdate nx2 ny2)
            ++ [{ c with id := id1, x := c.x + 30, y := c.y + 30 }],
          selectedBubbleId := some id1,
          clipboard := some c } := by
    rw [e1]
    simp only [updateBubbleState]
    rw [updateBubble_append,
      updateBubble_singleton_ne _ c.id _ (fun he => hc1 he.symm)]
  have e3 : pasteBubble (updateBubbleState
      (pasteBubble (updateBubbleState s c.id (moveUpdate nx1 ny1)) id1)
      c.id (moveUpdate nx2 ny2)) id2
      = { bubbles := updateBubble (updateBubble s.bubbles c.id (moveUpdate nx1 ny1))
            c.id (moveUpdate nx2 ny2)
            ++ [{ c with id := id1, x := c.x + 30, y := c.y + 30 },
                { c with id := id2, x := c.x + 30, y := c.y + 30 }],
          selectedBubbleId := some id2,
          clipboard := some c } := by
    rw [e2]
    simp [pasteBubble, List.append_assoc]
  refine ⟨by rw [e1], by rw [e3], by rw [e3], ?_, by rw [hmaps]; exact h1,
    by rw [hmaps]; exact h2⟩
  rw [e3]
  show (updateBubble (updateBubble s.bubbles c.id (moveUpdate nx1 ny1)) c.id
      (moveUpdate nx2 ny2)
    ++ [{ c with id := id1, x := c.x + 30, y := c.y + 30 },
        { c with id := id2, x := c.x + 30, y := c.y + 30 }]).map TextBubble.id = _
  rw [List.map_append, hmaps]
  rfl

/-- C2 witness: copying the sole entity, moving it, pasting, moving it
again and pasting again yields the id sequence [o, p, q] with the second
paste selected. -/
theorem paste_twice_fresh_offset_witness :
    (pasteBubble (updateBubbleState
        (pasteBubble (updateBubbleState
            { bubbles := [addBubbleEntity "o" BubbleType.SPEECH],
              selectedBubbleId := some "o",
              clipboard := some (addBubbleEntity "o" BubbleType.SPEECH) }
            (addBubbleEntity "o" BubbleType.SPEECH).id (moveUpdate 7 8)) "p")
        (addBubbleEntity "o" BubbleType.SPEECH).id (moveUpdate 9 10)) "q").bubbles.map
      TextBubble.id = ["o", "p", "q"] ∧
    (pasteBubble (updateBubbleState
        (pasteBubble (updateBubbleState
            { bubbles := [addBubbleEntity "o" BubbleType.SPEECH],
              selectedBubbleId := some "o",
              clipboard := some (addBubbleEntity "o" BubbleType.SPEECH) }
            (addBubbleEntity "o" BubbleType.SPEECH).id (moveUpdate 7 8)) "p")
        (addBubbleEntity "o" BubbleType.SPEECH).id (moveUpdate 9 10)) "q").selectedBubbleId
      = some "q" := by
  obtain ⟨-, hsel2, -, hmap, -, -⟩ := paste_twice_fresh_offset
    { bubbles := [addBubbleEntity "o" BubbleType.SPEECH],
      selectedBubbleId := some "o",
      clipboard := some (addBubbleEntity "o" BubbleType.SPEECH) }
    (addBubbleEntity "o" BubbleType.SPEECH) "p" "q" 7 8 9 10 rfl
    (by decide) (by decide) (by decide) (by decide) (by decide)
  exact ⟨hmap, hsel2⟩
